import Mathlib

set_option maxRecDepth 8000
set_option synthInstance.maxSize 512

/-!
Shallow embedding of the Bank Austria CSV statement plugin
(`src/ofxstatement/plugins/bankaustria.py`) of the repository
`ofxstatement-austrian`, together with models of the helper functions the
plugin imports (`clean_multiple_whitespaces`, `fix_amount_string`,
`generate_transaction_id`, the parent class field mapping, and
`datetime.strptime` for the format `%d.%m.%Y`).  A raw CSV row is a
`List String` of 15 columns; per-row processing is `parse_record`.
-/

/-- Whitespace test for the ASCII whitespace characters recognized by the
Python runtime in `str.strip` and the regex class: space, tab, newline,
carriage return, vertical tab, form feed. -/
def isWs (c : Char) : Bool :=
  c == ' ' || c == '\t' || c == '\n' || c == '\r' || c == '\x0b' || c == '\x0c'

/-- Strip leading and trailing whitespace, as Python `str.strip()`. -/
def pyStrip (s : String) : String :=
  String.mk (((s.data.dropWhile (fun c => isWs c)).reverse.dropWhile
    (fun c => isWs c)).reverse)

/-- Fuel-driven splitter of a character list into its maximal
whitespace-free nonempty words; structural recursion on the fuel keeps it
definitionally computable.  The fuel never runs out when it starts at the
length of the list. -/
def wsTokensF : Nat → List Char → List (List Char)
  | _, [] => []
  | 0, _ :: _ => []
  | n + 1, c :: rest =>
    if isWs c then wsTokensF n rest
    else (c :: rest.takeWhile (fun d => !isWs d)) ::
      wsTokensF n (rest.dropWhile (fun d => !isWs d))

/-- Split a character list into its maximal whitespace-free nonempty
words. -/
def wsTokens (l : List Char) : List (List Char) := wsTokensF l.length l

/-- Modelled from the spec: the Whitespace Cleaner
(`clean_multiple_whitespaces` from `ofxstatement/plugins/utils.py`, which is
not under `src/`).  Every maximal run of whitespace characters is replaced
by a single space and leading/trailing whitespace is removed. -/
def clean_multiple_whitespaces (s : String) : String :=
  String.mk (List.intercalate [' '] (wsTokens s.data))

/-- Modelled from the spec: the Amount Normalizer (`fix_amount_string` from
`ofxstatement/plugins/utils.py`, which is not under `src/`).  It converts the
locale format (comma decimal separator, period thousands grouping) to the
canonical form by dropping every period and turning the comma into a
period. -/
def fix_amount_string (s : String) : String :=
  String.mk ((s.data.filter (fun c => c ≠ '.')).map
    (fun c => if c = ',' then '.' else c))

/-- Value of a list of decimal digit characters. -/
def digitsToNat (l : List Char) : Nat :=
  l.foldl (fun n c => n * 10 + (c.toNat - 48)) 0

/-- Modelled from the spec: the numeric parse performed by the host
framework's `parse_float` (Python `float`) on the already-normalized amount
string: an optional sign, digits with an optional single period, at least
one digit.  Returns the exact rational value, `none` on anything else
(the row-fatal FormatError of the spec). -/
def parse_float (s : String) : Option ℚ :=
  let l := (s.data.dropWhile (fun c => isWs c)).reverse.dropWhile
    (fun c => isWs c) |>.reverse
  let (neg, l1) : Bool × List Char :=
    match l with
    | '-' :: t => (true, t)
    | '+' :: t => (false, t)
    | t => (false, t)
  let ip := l1.takeWhile Char.isDigit
  let r1 := l1.dropWhile Char.isDigit
  match r1 with
  | [] =>
    if ip.length = 0 then none
    else
      let v : ℚ := mkRat (digitsToNat ip) 1
      some (if neg then Rat.neg v else v)
  | '.' :: fp =>
    if fp.all Char.isDigit ∧ 0 < ip.length + fp.length then
      let den : Nat := 10 ^ fp.length
      let num : Nat := digitsToNat ip * den + digitsToNat fp
      let v : ℚ := mkRat num den
      some (if neg then Rat.neg v else v)
    else none
  | _ => none

/-- Leap year test of the proleptic Gregorian calendar used by
Python `datetime`. -/
def isLeap (y : Nat) : Bool := (y % 4 == 0 && y % 100 != 0) || y % 400 == 0

/-- Number of days of a month, as validated by the Python
`datetime` constructor. -/
def daysInMonth (y m : Nat) : Nat :=
  if m = 2 then (if isLeap y then 29 else 28)
  else if m = 4 ∨ m = 6 ∨ m = 9 ∨ m = 11 then 30
  else 31

/-- Modelled from the Python standard library: `datetime.strptime` with the
format `%d.%m.%Y` (the parser class attribute `date_format`).  Day and month
are one or two digits, the year exactly four digits, the whole string must
be consumed, and the calendar date must be valid; on failure `strptime`
raises, modelled by `none`.  A parsed date is `(day, month, year)`. -/
def strptime_dmY (s : String) : Option (Nat × Nat × Nat) :=
  let l := s.data
  let ds := l.takeWhile Char.isDigit
  let r1 := l.dropWhile Char.isDigit
  if ds.length = 0 ∨ 2 < ds.length then none else
  match r1 with
  | '.' :: r2 =>
    let ms := r2.takeWhile Char.isDigit
    let r3 := r2.dropWhile Char.isDigit
    if ms.length = 0 ∨ 2 < ms.length then none else
    (match r3 with
    | '.' :: r4 =>
      if r4.length = 4 ∧ r4.all Char.isDigit then
        let d := digitsToNat ds
        let m := digitsToNat ms
        let y := digitsToNat r4
        if 1 ≤ d ∧ 1 ≤ m ∧ m ≤ 12 ∧ 1 ≤ y ∧ d ≤ daysInMonth y m then
          some (d, m, y)
        else none
      else none
    | _ => none)
  | _ => none

/-!
A small backtracking regular-expression engine, sufficient for the two
patterns compiled in `bankaustria.py` (`parsePosAtm` line 202 and
`parseDocument` line 169).  Greedy repetition is restricted to character
classes, which is all those patterns use (` +`, `[0-9]+`, `[A-Z]+`, `.*`,
`.{n}`), so the engine implements exactly Python's leftmost, greedy,
backtracking match for them.
-/

/-- Regular expressions over characters: literal strings, one character of a
class, greedy star of a class, exactly `n` characters of a class,
concatenation, alternation (left first), and a capturing group.  Captures
are collected in completion order, which for the two source patterns (whose
groups are sequential and not nested) is Python's group order. -/
inductive RE : Type
  | lit : List Char → RE
  | one : (Char → Bool) → RE
  | many : (Char → Bool) → RE
  | rep : Nat → (Char → Bool) → RE
  | cat : RE → RE → RE
  | alt : RE → RE → RE
  | grp : RE → RE

/-- Greedy choice of how many class characters a star consumes: try `i`
characters first (the longest run), then back off one at a time. -/
def manyAux (i : Nat) (s : List Char) (caps : List (List Char))
    (k : List Char → List (List Char) → Option (List (List Char))) :
    Option (List (List Char)) :=
  match i with
  | 0 => k s caps
  | j + 1 => (k (s.drop (j + 1)) caps) <|> manyAux j s caps k

/-- Backtracking matcher in continuation style.  The continuation receives
the remaining input and the captures collected so far; alternatives are
tried in Python's priority order (left alternative first, longest greedy
run first), so the first success is Python's match. -/
def reMatch (r : RE) (s : List Char) (caps : List (List Char))
    (k : List Char → List (List Char) → Option (List (List Char))) :
    Option (List (List Char)) :=
  match r with
  | .lit w => if w.isPrefixOf s then k (s.drop w.length) caps else none
  | .one p =>
    match s with
    | [] => none
    | c :: t => if p c then k t caps else none
  | .many p => manyAux (s.takeWhile p).length s caps k
  | .rep n p =>
    if n ≤ s.length ∧ (s.take n).all p then k (s.drop n) caps else none
  | .cat a b => reMatch a s caps (fun s2 caps2 => reMatch b s2 caps2 k)
  | .alt a b => (reMatch a s caps k) <|> (reMatch b s caps k)
  | .grp a =>
    reMatch a s caps
      (fun s2 caps2 => k s2 (caps2 ++ [s.take (s.length - s2.length)]))

/-- Unanchored search at successive start positions, as Python
`re.findall` restricted to its first (leftmost) match: the capture list of
the match, or `none`. -/
def reSearchAux (r : RE) (s : List Char) : Option (List (List Char)) :=
  match s with
  | [] => reMatch r [] [] (fun _ caps => some caps)
  | _ :: t => (reMatch r s [] (fun _ caps => some caps)) <|> reSearchAux r t

/-- Search a string for the pattern, as `p.findall(toparse)` followed by
taking the first match. -/
def reSearch (r : RE) (s : String) : Option (List (List Char)) :=
  reSearchAux r s.data

/-- Concatenation of a pattern sequence. -/
def reSeq (l : List RE) : RE := l.foldr RE.cat (RE.lit [])

/-- Class of one or more characters, greedy (`p+`). -/
def rePlus (p : Char → Bool) : RE := RE.cat (RE.one p) (RE.many p)

/-- Python `.` — any character except a newline. -/
def reDot (c : Char) : Bool := c ≠ '\n'

/-- ASCII digit class `[0-9]`. -/
def reDigit (c : Char) : Bool := c.isDigit

/-- ASCII upper-case class `[A-Z]`. -/
def reUpper (c : Char) : Bool := 'A' ≤ c && c ≤ 'Z'

/-- Space character. -/
def reSpace (c : Char) : Bool := c == ' '

/-- The compiled pattern of `parsePosAtm` (line 202):
`(POS|ATM) +([0-9]+,[0-9]+) ([A-Z]+) +(K[0-9]) +(......) (..:..) O (.{22}) +(.{13}) +(.*)`. -/
def posAtmRE : RE := reSeq [
  RE.grp (RE.alt (RE.lit "POS".data) (RE.lit "ATM".data)),
  rePlus reSpace,
  RE.grp (reSeq [rePlus reDigit, RE.lit ",".data, rePlus reDigit]),
  RE.lit " ".data,
  RE.grp (rePlus reUpper),
  rePlus reSpace,
  RE.grp (RE.cat (RE.lit "K".data) (RE.one reDigit)),
  rePlus reSpace,
  RE.grp (RE.rep 6 reDot),
  RE.lit " ".data,
  RE.grp (reSeq [RE.rep 2 reDot, RE.lit ":".data, RE.rep 2 reDot]),
  RE.lit " O ".data,
  RE.grp (RE.rep 22 reDot),
  rePlus reSpace,
  RE.grp (RE.rep 13 reDot),
  rePlus reSpace,
  RE.grp (RE.many reDot)]

/-- The compiled pattern of `parseDocument` (line 169):
`.*Belegnr.: ([0-9.]{18}).*(?:Zahlungsempf|Zahlungspfl).: (.{56}).*Zahlungsgrund: (.{105}).*Zahlungsref.: (.{110})`.
The periods after `Belegnr`, the payee/payer label, and `Zahlungsref` are
unescaped and therefore match any character. -/
def docRE : RE := reSeq [
  RE.many reDot,
  RE.lit "Belegnr".data,
  RE.one reDot,
  RE.lit ": ".data,
  RE.grp (RE.rep 18 (fun c => c.isDigit || c == '.')),
  RE.many reDot,
  RE.alt (RE.lit "Zahlungsempf".data) (RE.lit "Zahlungspfl".data),
  RE.one reDot,
  RE.lit ": ".data,
  RE.grp (RE.rep 56 reDot),
  RE.many reDot,
  RE.lit "Zahlungsgrund: ".data,
  RE.grp (RE.rep 105 reDot),
  RE.many reDot,
  RE.lit "Zahlungsref".data,
  RE.one reDot,
  RE.lit ": ".data,
  RE.grp (RE.rep 110 reDot)]

/-!
The statement-line record and per-row processing of `BankAustriaCsvParser`.
-/

/-- Result record of one CSV row, mirroring the fields of the host
framework's `StatementLine` as used by the plugin.  A date is the parsed
`(day, month, year)` triple.  The field `date_user` holds its final value:
the parent class first stores the raw column-0 string there, but line 86 of
the source unconditionally overwrites it with `strptime(line[1])` before the
record is returned, so only that final value is observable. -/
structure StatementLine where
  id : String
  date : Nat × Nat × Nat
  date_user : Nat × Nat × Nat
  memo : String
  payee : String
  amount : ℚ
  check_no : String
  trntype : String
deriving DecidableEq, Repr

/-- Column mapping of the parser class (lines 48-55 of the source):
field name to zero-based CSV column. -/
def mappings : List (String × Nat) :=
  [("date", 1), ("date_user", 0), ("memo", 14),
   ("amount", 5), ("check_no", 7), ("payee", 11)]

/-- Modelled from the spec: `generate_transaction_id` of the host framework
(called at line 81), a deterministic identifier derived from a stable
combination of the record's date, amount, payee and memo fields. -/
def generate_transaction_id (r : StatementLine) : String :=
  toString r.date.1 ++ "." ++ toString r.date.2.1 ++ "." ++
    toString r.date.2.2 ++ "|" ++ toString r.amount.num ++ "/" ++
    toString r.amount.den ++ "|" ++ r.payee ++ "|" ++ r.memo

/-- Translation of `parsePosAtm` (lines 189-214): match the fixed POS/ATM
layout; on a match, format the memo from the captured groups with the
statement currency; otherwise return the sentinel text. -/
def parsePosAtm (currency : String) (toparse : String) : String :=
  match reSearch posAtmRE toparse with
  | some caps =>
    let m : Nat → String := fun i => String.mk (caps.getD i [])
    (m 0) ++ ": " ++ pyStrip (m 6) ++ ", " ++ (m 8) ++ " " ++
      pyStrip (m 7) ++ ", " ++ (m 2) ++ "; " ++ (m 1) ++ " " ++ currency ++
      " on " ++ (m 4) ++ " " ++ (m 5) ++ "h"
  | none => "ERR: " ++ toparse

/-- Translation of `parseDocument` (lines 162-187): match the labeled
document layout; on a match, take the stripped payment-reason group if it is
nonempty, else the stripped payment-reference group; otherwise return the
sentinel text. -/
def parseDocument (toparse : String) : String :=
  match reSearch docRE toparse with
  | some caps =>
    let reason := pyStrip (String.mk (caps.getD 2 []))
    let ref := pyStrip (String.mk (caps.getD 3 []))
    if reason ≠ "" then reason else ref
  | none => "ERR: " ++ toparse

/-- Prefix test over code points, the semantics of Python
`str.startswith`. -/
def pyStartswith (s p : String) : Bool := p.data.isPrefixOf s.data

/-- Translation of the memo/payee/trntype fixup chain of `parse_record`
(lines 105-147): the ordered prefix dispatch on the booking-text column
(index 2) and the document-details column (index 6).  Arguments are the
statement currency (already updated by line 96), the row, and the current
memo, payee and trntype; the result is the new `(memo, payee, trntype)`. -/
def fixupMemoPayeeTrntype (currency : String) (line : List String)
    (memo payee trntype : String) : String × String × String :=
  let l2 := line.getD 2 ""
  let l6 := line.getD 6 ""
  if pyStartswith l2 "POS" then
    (parsePosAtm currency l2, payee, "POS")
  else if pyStartswith l2 "ATM" then
    (parsePosAtm currency l2, payee, "ATM")
  else if pyStartswith l2 "AUTOMAT" || pyStartswith l2 "BANKOMAT" then
    (l2, payee, "ATM")
  else if pyStartswith l2 "ABHEBUNG AUTOMAT" then
    (l2, payee, "ATM")
  else if pyStartswith l2 "EINZAHLUNG" then
    (l2, payee, trntype)
  else if pyStartswith l2 "Lastschrift JustinCase" then
    (l2, payee, trntype)
  else if pyStartswith l6 "SEPA-AUFTRAGSBESTÄTIGUNG" then
    (if memo = "" then parseDocument l6 else memo, payee, trntype)
  else if pyStartswith l6 "GUTSCHRIFT" || pyStartswith l6 "SEPA" ||
      pyStartswith l6 "ÜBERWEISUNG" then
    (if memo = "" then parseDocument l6 else memo, line.getD 8 "", trntype)
  else
    (l2, payee, trntype)

/-- Translation of the successful path of `parse_record` (lines 74-160)
together with the field mapping performed by the parent class at line 79.
Inputs are the current statement currency (empty when still unset, Python
falsy), the raw row, and the already-parsed value date and amount; the
result is the finished record and the possibly updated statement currency.
The identifier is computed at the point of line 81, before the trntype
derivation, the fixup chain, the whitespace cleanup and the internal-note
append.  The parent also stores the raw column-0 string in `date_user`, but
line 86 overwrites it with `strptime(line[1])`, so the final record carries
the value date there. -/
def parse_record_ok (currency : String) (line : List String)
    (d : Nat × Nat × Nat) (amt : ℚ) : StatementLine × String :=
  let pre : StatementLine :=
    { id := "", date := d, date_user := d, memo := line.getD 14 "",
      payee := line.getD 11 "", amount := amt,
      check_no := line.getD 7 "", trntype := "" }
  let theId := generate_transaction_id pre
  let trntype0 : String := if amt < 0 then "DEBIT" else "CREDIT"
  let currency2 := if currency = "" then line.getD 4 "" else currency
  let fixed := fixupMemoPayeeTrntype currency2 line pre.memo pre.payee
    trntype0
  let payee2 := clean_multiple_whitespaces fixed.2.1
  let memo2 := clean_multiple_whitespaces fixed.1
  let note := line.getD 3 ""
  let memo3 :=
    if note ≠ "" then
      (if memo2 ≠ "" then memo2 ++ " " else memo2) ++ "(NOTE: )" ++ note
    else memo2
  let result : StatementLine :=
    { pre with
      id := theId
      memo := memo3
      payee := payee2
      trntype := fixed.2.2 }
  (result, currency2)

/-- Translation of `parse_record` (lines 67-160).  The header row (row
counter 1) yields no record.  The result is `Except`: an error models a
raised exception (a failed `strptime` on the value-date column when the
parent parses the `date` field or when line 86 re-parses it, or a failed
`float` on the normalized amount column); otherwise the record and currency
are produced by `parse_record_ok`. -/
def parse_record (currency : String) (cur_record : Nat) (line : List String) :
    Except String (Option StatementLine × String) :=
  if cur_record = 1 then Except.ok (none, currency) else
  match strptime_dmY (line.getD 1 "") with
  | none => Except.error "ValueError: time data does not match format"
  | some d =>
    match parse_float (fix_amount_string (line.getD 5 "")) with
    | none => Except.error "ValueError: could not convert string to float"
    | some amt =>
      let rc := parse_record_ok currency line d amt
      Except.ok (some rc.1, rc.2)

/-- Record extracted from a per-row result, when the row produced one. -/
def recOf (e : Except String (Option StatementLine × String)) :
    Option StatementLine :=
  match e with
  | Except.ok (r, _) => r
  | Except.error _ => none

/-- Default record, used to project an optional record in closed
statements. -/
instance : Inhabited StatementLine :=
  ⟨⟨"", (0, 0, 0), (0, 0, 0), "", "", 0, "", ""⟩⟩

/-- Record extracted from a per-row result, with a default for the
impossible cases of closed concrete statements. -/
def recOfD (e : Except String (Option StatementLine × String)) :
    StatementLine :=
  (recOf e).getD default

/-- POS booking-text of the spec example (source comment line 196). -/
def posNarrative : String :=
  "POS          11,00 NL  K1   16.01. 14:46 O NS SCHIPHOL 216        LUCHTHAVEN SC 1118 AX"

/-- Row carrying the POS example booking-text. -/
def rowPos : List String :=
  ["15.01.2015", "16.01.2015", posNarrative, "", "EUR", "-11,00", "", "",
   "", "", "", "", "", "", ""]

/-- Row with an unclassified booking-text and the payment-reason column set
to the argument; the fallback branch discards the payment-reason memo. -/
def rowReason (x : String) : List String :=
  ["01.01.2015", "02.01.2015", "Foo", "", "EUR", "1,00", "", "", "", "",
   "", "", "", "", x]

/-- Row with an internal note containing a run of two spaces. -/
def rowNote : List String :=
  ["01.01.2015", "02.01.2015", "Foo", "a  b", "EUR", "1,00", "", "", "",
   "", "", "", "", "", ""]

/-- Row whose booking-date column (0) and value-date column (1) hold
distinct dates. -/
def rowDates : List String :=
  ["01.01.2020", "02.01.2020", "Foo", "", "EUR", "1,00", "", "", "", "",
   "", "", "", "", ""]

/-- Row with a parseable amount but garbage in the value-date column. -/
def rowBadDate : List String :=
  ["01.01.2020", "xx", "Foo", "", "EUR", "1,00", "", "", "", "", "", "",
   "", "", ""]

/-- Credit row: document-details start with GUTSCHRIFT, the payer-name
column (8) is empty, the payee-name column (11) holds a name. -/
def rowCredit : List String :=
  ["01.01.2015", "02.01.2015", "Gutschrift text", "", "EUR", "5,00",
   "GUTSCHRIFT abc", "", "", "", "", "JOHN DOE", "", "", ""]

/-- Confirmation row: document-details start with
SEPA-AUFTRAGSBESTÄTIGUNG, the payer-name column (8) holds a name that must
not reach the payee. -/
def rowConfirm : List String :=
  ["01.01.2015", "02.01.2015", "Foo", "", "EUR", "5,00",
   "SEPA-AUFTRAGSBESTÄTIGUNG xyz", "", "IGNORED PAYER", "", "",
   "JANE ROE", "", "", ""]

/-- Row exercising the memo guard of the document branches: unclassified
booking-text, GUTSCHRIFT document-details, nonempty payment-reason. -/
def rowGuard : List String :=
  ["", "", "Foo", "", "", "", "GUTSCHRIFT abc", "", "PAYER", "", "", "",
   "", "", "My reason"]

/-- Document-details text laid out to match the labeled pattern with an
all-blank payment-reason span and a reference span holding REF123. -/
def docDetails : String :=
  "Belegnr.: 012345678901234567Zahlungsempf.: MAX MUSTERMANN" ++
  String.mk (List.replicate 42 ' ') ++ "Zahlungsgrund: " ++
  String.mk (List.replicate 105 ' ') ++ "Zahlungsref.: REF123" ++
  String.mk (List.replicate 104 ' ')

/-- The four capture groups the labeled pattern extracts from
`docDetails`. -/
def docCaps : List (List Char) :=
  ["012345678901234567".data,
   ("MAX MUSTERMANN" ++ String.mk (List.replicate 42 ' ')).data,
   List.replicate 105 ' ',
   ("REF123" ++ String.mk (List.replicate 104 ' ')).data]

/-- Negative prefix conditions on the booking-text column: none of the six
booking-text branches of the fixup chain applies. -/
def noBookingPrefixMatch (l2 : String) : Prop :=
  pyStartswith l2 "POS" = false ∧ pyStartswith l2 "ATM" = false ∧
  pyStartswith l2 "AUTOMAT" = false ∧ pyStartswith l2 "BANKOMAT" = false ∧
  pyStartswith l2 "ABHEBUNG AUTOMAT" = false ∧
  pyStartswith l2 "EINZAHLUNG" = false ∧
  pyStartswith l2 "Lastschrift JustinCase" = false

instance (l2 : String) : Decidable (noBookingPrefixMatch l2) := by
  unfold noBookingPrefixMatch; infer_instance

/-!
Properties of the whitespace cleaner: its output is a fixed point, so
cleaning is idempotent and a cleaned field is exactly a
whitespace-normalized one.
-/

theorem wsTokensF_eq : ∀ (n : Nat) (l : List Char), l.length ≤ n →
    wsTokensF n l = wsTokensF l.length l := by
  intro n
  induction n using Nat.strong_induction_on with
  | _ n ih =>
    intro l hl
    cases l with
    | nil => cases n <;> rfl
    | cons c rest =>
      cases n with
      | zero => simp at hl
      | succ m =>
        have h1 : rest.length ≤ m := by
          simp only [List.length_cons] at hl; omega
        have h2 : (rest.dropWhile (fun d => !isWs d)).length ≤ m :=
          le_trans (List.dropWhile_sublist _).length_le h1
        have h3 : (rest.dropWhile (fun d => !isWs d)).length ≤ rest.length :=
          (List.dropWhile_sublist _).length_le
        simp only [wsTokensF, List.length_cons]
        by_cases hc : isWs c
        · rw [if_pos hc, if_pos hc, ih m (Nat.lt_succ_self m) rest h1]
        · rw [if_neg hc, if_neg hc,
            ih m (Nat.lt_succ_self m) _ h2,
            ih rest.length (Nat.lt_succ_of_le h1) _ h3]

theorem wsTokens_nil : wsTokens [] = [] := rfl

theorem wsTokens_cons (c : Char) (rest : List Char) :
    wsTokens (c :: rest) = if isWs c then wsTokens rest
      else (c :: rest.takeWhile (fun d => !isWs d)) ::
        wsTokens (rest.dropWhile (fun d => !isWs d)) := by
  show wsTokensF (c :: rest).length (c :: rest) = _
  simp only [List.length_cons, wsTokensF]
  by_cases hc : isWs c
  · rw [if_pos hc, if_pos hc]; rfl
  · rw [if_neg hc, if_neg hc,
      wsTokensF_eq rest.length _ (List.dropWhile_sublist _).length_le]
    rfl

theorem takeWhile_notWs_append (w rest : List Char)
    (hw : ∀ c ∈ w, isWs c = false) :
    (w ++ ' ' :: rest).takeWhile (fun d => !isWs d) = w := by
  induction w with
  | nil => simp [List.takeWhile_cons, isWs]
  | cons c t ih =>
    have hc : isWs c = false := hw c (List.mem_cons_self c t)
    simp only [List.cons_append, List.takeWhile_cons, hc, Bool.not_false,
      if_true, List.cons.injEq, true_and]
    exact ih (fun a ha => hw a (List.mem_cons_of_mem c ha))

theorem dropWhile_notWs_append (w rest : List Char)
    (hw : ∀ c ∈ w, isWs c = false) :
    (w ++ ' ' :: rest).dropWhile (fun d => !isWs d) = ' ' :: rest := by
  induction w with
  | nil => simp [List.dropWhile_cons, isWs]
  | cons c t ih =>
    have hc : isWs c = false := hw c (List.mem_cons_self c t)
    simp only [List.cons_append, List.dropWhile_cons, hc, Bool.not_false,
      if_true]
    exact ih (fun a ha => hw a (List.mem_cons_of_mem c ha))

theorem takeWhile_notWs_all (w : List Char) (hw : ∀ c ∈ w, isWs c = false) :
    w.takeWhile (fun d => !isWs d) = w := by
  induction w with
  | nil => rfl
  | cons c t ih =>
    have hc : isWs c = false := hw c (List.mem_cons_self c t)
    simp only [List.takeWhile_cons, hc, Bool.not_false, if_true,
      List.cons.injEq, true_and]
    exact ih (fun a ha => hw a (List.mem_cons_of_mem c ha))

theorem dropWhile_notWs_all (w : List Char) (hw : ∀ c ∈ w, isWs c = false) :
    w.dropWhile (fun d => !isWs d) = [] := by
  induction w with
  | nil => rfl
  | cons c t ih =>
    have hc : isWs c = false := hw c (List.mem_cons_self c t)
    simp only [List.dropWhile_cons, hc, Bool.not_false, if_true]
    exact ih (fun a ha => hw a (List.mem_cons_of_mem c ha))

theorem wsTokens_space (rest : List Char) :
    wsTokens (' ' :: rest) = wsTokens rest := by
  rw [wsTokens_cons]
  simp [isWs]

theorem wsTokens_word_space (w rest : List Char) (hne : w ≠ [])
    (hw : ∀ c ∈ w, isWs c = false) :
    wsTokens (w ++ ' ' :: rest) = w :: wsTokens rest := by
  cases w with
  | nil => exact absurd rfl hne
  | cons c t =>
    have hc : isWs c = false := hw c (List.mem_cons_self c t)
    have ht : ∀ a ∈ t, isWs a = false :=
      fun a ha => hw a (List.mem_cons_of_mem c ha)
    rw [List.cons_append, wsTokens_cons]
    simp only [hc, Bool.false_eq_true, if_false,
      takeWhile_notWs_append t rest ht, dropWhile_notWs_append t rest ht,
      wsTokens_space]

theorem wsTokens_word (w : List Char) (hne : w ≠ [])
    (hw : ∀ c ∈ w, isWs c = false) :
    wsTokens w = [w] := by
  cases w with
  | nil => exact absurd rfl hne
  | cons c t =>
    have hc : isWs c = false := hw c (List.mem_cons_self c t)
    have ht : ∀ a ∈ t, isWs a = false :=
      fun a ha => hw a (List.mem_cons_of_mem c ha)
    rw [wsTokens_cons]
    simp only [hc, Bool.false_eq_true, if_false, takeWhile_notWs_all t ht,
      dropWhile_notWs_all t ht]
    rw [wsTokens_nil]

theorem wsTokens_props (n : Nat) : ∀ (l : List Char), l.length ≤ n →
    ∀ w ∈ wsTokens l, w ≠ [] ∧ ∀ c ∈ w, isWs c = false := by
  induction n with
  | zero =>
    intro l hl w hw
    cases l with
    | nil => rw [wsTokens_nil] at hw; exact absurd hw (List.not_mem_nil w)
    | cons c rest => simp at hl
  | succ n ih =>
    intro l hl w hw
    cases l with
    | nil => rw [wsTokens_nil] at hw; exact absurd hw (List.not_mem_nil w)
    | cons c rest =>
      have hrest : rest.length ≤ n := by
        simp only [List.length_cons] at hl; omega
      rw [wsTokens_cons] at hw
      by_cases hc : isWs c = true
      · rw [if_pos hc] at hw
        exact ih rest hrest w hw
      · rw [if_neg hc] at hw
        rcases List.mem_cons.mp hw with rfl | hw2
        · refine ⟨List.cons_ne_nil c _, ?_⟩
          intro a ha
          rcases List.mem_cons.mp ha with rfl | ha2
          · exact Bool.eq_false_iff.mpr hc
          · have := List.mem_takeWhile_imp ha2
            simpa using this
        · have hlen : (rest.dropWhile (fun d => !isWs d)).length ≤ n :=
            le_trans (List.dropWhile_sublist _).length_le hrest
          exact ih _ hlen w hw2

theorem wsTokens_mem (l : List Char) :
    ∀ w ∈ wsTokens l, w ≠ [] ∧ ∀ c ∈ w, isWs c = false :=
  wsTokens_props l.length l le_rfl

theorem intercalate_spc_nil :
    List.intercalate [' '] ([] : List (List Char)) = [] := by
  simp [List.intercalate]

theorem intercalate_spc_one (w : List Char) :
    List.intercalate [' '] [w] = w := by
  simp [List.intercalate]

theorem intercalate_spc_cons2 (w w2 : List Char) (ts : List (List Char)) :
    List.intercalate [' '] (w :: w2 :: ts) =
      w ++ ' ' :: List.intercalate [' '] (w2 :: ts) := by
  simp [List.intercalate, List.intersperse]

theorem wsTokens_intercalate (ts : List (List Char))
    (h : ∀ w ∈ ts, w ≠ [] ∧ ∀ c ∈ w, isWs c = false) :
    wsTokens (List.intercalate [' '] ts) = ts := by
  induction ts with
  | nil => rw [intercalate_spc_nil, wsTokens_nil]
  | cons w ts ih =>
    cases ts with
    | nil =>
      rcases h w (List.mem_cons_self w _) with ⟨hne, hw⟩
      rw [intercalate_spc_one, wsTokens_word w hne hw]
    | cons w2 ts2 =>
      rcases h w (List.mem_cons_self w _) with ⟨hne, hw⟩
      rw [intercalate_spc_cons2, wsTokens_word_space w _ hne hw,
        ih (fun a ha => h a (List.mem_cons_of_mem w ha))]

/-- Idempotence of the whitespace cleaner: cleaning a second time changes
nothing, so cleaned text is whitespace-normalized in the sense of the
spec. -/
theorem clean_multiple_whitespaces_idem (s : String) :
    clean_multiple_whitespaces (clean_multiple_whitespaces s) =
      clean_multiple_whitespaces s := by
  unfold clean_multiple_whitespaces
  congr 1
  exact congrArg _ (wsTokens_intercalate (wsTokens s.data) (wsTokens_mem _))

/-!
Inversion and projection lemmas for per-row processing.
-/

theorem recOf_parse_record (currency : String) (cur_record : Nat)
    (line : List String) (r : StatementLine)
    (h : recOf (parse_record currency cur_record line) = some r) :
    ∃ d amt, strptime_dmY (line.getD 1 "") = some d ∧
      parse_float (fix_amount_string (line.getD 5 "")) = some amt ∧
      r = (parse_record_ok currency line d amt).1 := by
  unfold parse_record at h
  by_cases hcr : cur_record = 1
  · rw [if_pos hcr] at h
    exact absurd h (by simp [recOf])
  · rw [if_neg hcr] at h
    cases hd : strptime_dmY (line.getD 1 "") with
    | none =>
      rw [hd] at h
      exact absurd h (by simp [recOf])
    | some d =>
      rw [hd] at h
      cases ha : parse_float (fix_amount_string (line.getD 5 "")) with
      | none =>
        rw [ha] at h
        exact absurd h (by simp [recOf])
      | some amt =>
        rw [ha] at h
        simp only [recOf, Option.some.injEq] at h
        exact ⟨d, amt, rfl, rfl, h.symm⟩

theorem parse_record_ok_date (currency : String) (line : List String)
    (d : Nat × Nat × Nat) (amt : ℚ) :
    (parse_record_ok currency line d amt).1.date = d := rfl

theorem parse_record_ok_date_user (currency : String) (line : List String)
    (d : Nat × Nat × Nat) (amt : ℚ) :
    (parse_record_ok currency line d amt).1.date_user = d := rfl

theorem parse_record_ok_id (currency : String) (line : List String)
    (d : Nat × Nat × Nat) (amt : ℚ) :
    (parse_record_ok currency line d amt).1.id = generate_transaction_id
      { id := "", date := d, date_user := d, memo := line.getD 14 "",
        payee := line.getD 11 "", amount := amt,
        check_no := line.getD 7 "", trntype := "" } := rfl

theorem parse_record_ok_payee (currency : String) (line : List String)
    (d : Nat × Nat × Nat) (amt : ℚ) :
    (parse_record_ok currency line d amt).1.payee =
      clean_multiple_whitespaces (fixupMemoPayeeTrntype
        (if currency = "" then line.getD 4 "" else currency) line
        (line.getD 14 "") (line.getD 11 "")
        (if amt < 0 then "DEBIT" else "CREDIT")).2.1 := rfl

theorem parse_record_ok_memo (currency : String) (line : List String)
    (d : Nat × Nat × Nat) (amt : ℚ) :
    (parse_record_ok currency line d amt).1.memo =
      (if line.getD 3 "" ≠ "" then
        (if clean_multiple_whitespaces (fixupMemoPayeeTrntype
            (if currency = "" then line.getD 4 "" else currency) line
            (line.getD 14 "") (line.getD 11 "")
            (if amt < 0 then "DEBIT" else "CREDIT")).1 ≠ "" then
          clean_multiple_whitespaces (fixupMemoPayeeTrntype
            (if currency = "" then line.getD 4 "" else currency) line
            (line.getD 14 "") (line.getD 11 "")
            (if amt < 0 then "DEBIT" else "CREDIT")).1 ++ " "
        else clean_multiple_whitespaces (fixupMemoPayeeTrntype
            (if currency = "" then line.getD 4 "" else currency) line
            (line.getD 14 "") (line.getD 11 "")
            (if amt < 0 then "DEBIT" else "CREDIT")).1) ++
          "(NOTE: )" ++ line.getD 3 ""
      else clean_multiple_whitespaces (fixupMemoPayeeTrntype
        (if currency = "" then line.getD 4 "" else currency) line
        (line.getD 14 "") (line.getD 11 "")
        (if amt < 0 then "DEBIT" else "CREDIT")).1) := rfl

theorem fixup_confirmation_branch (currency : String) (line : List String)
    (memo payee trntype : String)
    (hb : noBookingPrefixMatch (line.getD 2 ""))
    (h7 : pyStartswith (line.getD 6 "") "SEPA-AUFTRAGSBESTÄTIGUNG" = true) :
    fixupMemoPayeeTrntype currency line memo payee trntype =
      (if memo = "" then parseDocument (line.getD 6 "") else memo, payee,
        trntype) := by
  obtain ⟨h1, h2, h3, h4, h5, h6, hj⟩ := hb
  simp [fixupMemoPayeeTrntype, h1, h2, h3, h4, h5, h6, hj, h7,
    -List.getD_eq_getElem?_getD]

theorem fixup_credit_branch (currency : String) (line : List String)
    (memo payee trntype : String)
    (hb : noBookingPrefixMatch (line.getD 2 ""))
    (h7 : pyStartswith (line.getD 6 "") "SEPA-AUFTRAGSBESTÄTIGUNG" = false)
    (h8 : (pyStartswith (line.getD 6 "") "GUTSCHRIFT" ||
      pyStartswith (line.getD 6 "") "SEPA" ||
      pyStartswith (line.getD 6 "") "ÜBERWEISUNG") = true) :
    fixupMemoPayeeTrntype currency line memo payee trntype =
      (if memo = "" then parseDocument (line.getD 6 "") else memo,
        line.getD 8 "", trntype) := by
  obtain ⟨h1, h2, h3, h4, h5, h6, hj⟩ := hb
  simp [fixupMemoPayeeTrntype, h1, h2, h3, h4, h5, h6, hj, h7, h8,
    -List.getD_eq_getElem?_getD]

/-!
Claim theorems.
-/

/-- C1, counterexample: the claim that stored memo values are always
whitespace-normalized — including when the internal-note column is
non-empty — fails: for `rowNote` (note text with a double space) the stored
memo contains a run of two spaces, so it is not a fixed point of the
whitespace cleaner. -/
theorem C1_counterexample :
    (recOf (parse_record "" 2 rowNote)).map (fun r => r.memo) =
      some "Foo (NOTE: )a  b" ∧
    clean_multiple_whitespaces "Foo (NOTE: )a  b" ≠ "Foo (NOTE: )a  b" := by
  constructor
  · decide
  · decide

/-- C1 (amended): the stored payee is always whitespace-normalized, and the
stored memo is whitespace-normalized whenever the internal-note column is
empty; the cleanup of lines 149-151 runs before the note append of lines
153-158, so a non-empty note is appended verbatim. -/
theorem C1_amended (currency : String) (cur_record : Nat)
    (line : List String) (r : StatementLine)
    (h : recOf (parse_record currency cur_record line) = some r) :
    clean_multiple_whitespaces r.payee = r.payee ∧
    (line.getD 3 "" = "" →
      clean_multiple_whitespaces r.memo = r.memo) := by
  rcases recOf_parse_record _ _ _ _ h with ⟨d, amt, hd, ha, rfl⟩
  constructor
  · rw [parse_record_ok_payee]
    exact clean_multiple_whitespaces_idem _
  · intro h3
    rw [parse_record_ok_memo, if_neg (by simpa [List.getD] using h3)]
    exact clean_multiple_whitespaces_idem _

/-- C1 (amended), witness at the concrete row `rowDates`, whose
internal-note column is empty. -/
theorem C1_amended_witness :
    clean_multiple_whitespaces (recOfD (parse_record "" 2 rowDates)).payee =
      (recOfD (parse_record "" 2 rowDates)).payee ∧
    clean_multiple_whitespaces (recOfD (parse_record "" 2 rowDates)).memo =
      (recOfD (parse_record "" 2 rowDates)).memo := by
  have h : recOf (parse_record "" 2 rowDates) =
      some (recOfD (parse_record "" 2 rowDates)) := by decide
  exact ⟨(C1_amended "" 2 rowDates _ h).1,
    (C1_amended "" 2 rowDates _ h).2 (by decide)⟩

/-- C2, counterexample: two rows that differ only in the payment-reason
column (discarded by the fallback branch) yield finished records agreeing
on every normalized field — date, user date, memo, payee, amount, check
number, type — yet different ids, so the id is not computed from the
finished record. -/
theorem C2_counterexample :
    (recOf (parse_record "" 2 (rowReason "A"))).map
        (fun r => (r.date, r.date_user, r.memo, r.payee, r.amount,
          r.check_no, r.trntype)) =
      (recOf (parse_record "" 2 (rowReason "B"))).map
        (fun r => (r.date, r.date_user, r.memo, r.payee, r.amount,
          r.check_no, r.trntype)) ∧
    (recOf (parse_record "" 2 (rowReason "A"))).map (fun r => r.id) ≠
      (recOf (parse_record "" 2 (rowReason "B"))).map (fun r => r.id) := by
  constructor
  · decide
  · decide

/-- C2 (amended): the id is deterministic — a function of the raw mapped
columns only — but it is computed at line 81 from the record as it stands
right after column mapping: memo is still the raw payment-reason column and
payee the raw payee-name column, before classification, cleanup and the
note append. -/
theorem C2_amended (currency : String) (cur_record : Nat)
    (line : List String) (r : StatementLine) (d : Nat × Nat × Nat) (amt : ℚ)
    (hd : strptime_dmY (line.getD 1 "") = some d)
    (ha : parse_float (fix_amount_string (line.getD 5 "")) = some amt)
    (h : recOf (parse_record currency cur_record line) = some r) :
    r.id = generate_transaction_id
      { id := "", date := d, date_user := d, memo := line.getD 14 "",
        payee := line.getD 11 "", amount := amt,
        check_no := line.getD 7 "", trntype := "" } := by
  rcases recOf_parse_record _ _ _ _ h with ⟨d2, amt2, hd2, ha2, rfl⟩
  rw [hd2] at hd
  rw [ha2] at ha
  obtain rfl : d2 = d := Option.some.inj hd
  obtain rfl : amt2 = amt := Option.some.inj ha
  exact parse_record_ok_id currency line d2 amt2

/-- C2 (amended), witness at the concrete row with payment-reason A. -/
theorem C2_amended_witness :
    (recOfD (parse_record "" 2 (rowReason "A"))).id =
      generate_transaction_id
        { id := "", date := (2, 1, 2015), date_user := (2, 1, 2015),
          memo := "A", payee := "", amount := 1, check_no := "",
          trntype := "" } := by
  have h : recOf (parse_record "" 2 (rowReason "A")) =
      some (recOfD (parse_record "" 2 (rowReason "A"))) := by decide
  exact C2_amended "" 2 (rowReason "A") _ (2, 1, 2015) 1 (by decide)
    (by decide) h

/-- C3: the claim says the booking date (user date) is taken from the
booking-date column (0), as the mapping declares; but line 86 overwrites
`date_user` with `strptime(line[1])`, so for `rowDates` — whose columns 0
and 1 hold the distinct dates 01.01.2020 and 02.01.2020 — both stored date
fields are 02.01.2020 while column 0 parses to 01.01.2020. -/
theorem C3_date_user_from_value_date :
    (recOf (parse_record "" 2 rowDates)).map
        (fun r => (r.date, r.date_user)) =
      some ((2, 1, 2020), (2, 1, 2020)) ∧
    strptime_dmY (rowDates.getD 0 "") = some (1, 1, 2020) ∧
    mappings.lookup "date_user" = some 0 := by
  refine ⟨?_, ?_, ?_⟩
  · decide
  · decide
  · decide

/-- C4: for the example POS booking-text and statement currency EUR, the
classifier sets the transaction type to POS and the memo to exactly the
formatted narrative of the spec. -/
theorem C4_pos_example :
    (recOf (parse_record "EUR" 2 rowPos)).map
        (fun r => (r.trntype, r.memo)) =
      some ("POS",
        "POS: NS SCHIPHOL 216, 1118 AX LUCHTHAVEN SC, NL; 11,00 EUR on 16.01. 14:46h") := by
  decide

/-- C5: in the document-details branches (confirmation label or
credit/transfer labels), a memo already holding non-empty payment-reason
text is left unchanged and the document extractor output is not assigned;
the extractor output is assigned exactly when the memo is empty at that
point. -/
theorem C5_document_memo_guard (currency : String) (line : List String)
    (payee trntype : String)
    (hb : noBookingPrefixMatch (line.getD 2 ""))
    (hl : pyStartswith (line.getD 6 "") "SEPA-AUFTRAGSBESTÄTIGUNG" = true ∨
      pyStartswith (line.getD 6 "") "GUTSCHRIFT" = true ∨
      pyStartswith (line.getD 6 "") "SEPA" = true ∨
      pyStartswith (line.getD 6 "") "ÜBERWEISUNG" = true) :
    (line.getD 14 "" ≠ "" →
      (fixupMemoPayeeTrntype currency line (line.getD 14 "") payee
        trntype).1 = line.getD 14 "") ∧
    (line.getD 14 "" = "" →
      (fixupMemoPayeeTrntype currency line (line.getD 14 "") payee
        trntype).1 = parseDocument (line.getD 6 "")) := by
  by_cases h7 : pyStartswith (line.getD 6 "") "SEPA-AUFTRAGSBESTÄTIGUNG" = true
  · rw [fixup_confirmation_branch currency line _ payee trntype hb h7]
    constructor
    · intro h14
      dsimp only
      rw [if_neg h14]
    · intro h14
      dsimp only
      rw [if_pos h14]
  · have h7f : pyStartswith (line.getD 6 "") "SEPA-AUFTRAGSBESTÄTIGUNG" =
        false := Bool.eq_false_iff.mpr h7
    have h8 : (pyStartswith (line.getD 6 "") "GUTSCHRIFT" ||
        pyStartswith (line.getD 6 "") "SEPA" ||
        pyStartswith (line.getD 6 "") "ÜBERWEISUNG") = true := by
      rcases hl with h | h | h | h
      · exact absurd h h7
      · simp only [h, Bool.true_or, Bool.or_true]
      · simp only [h, Bool.true_or, Bool.or_true]
      · simp only [h, Bool.true_or, Bool.or_true]
    rw [fixup_credit_branch currency line _ payee trntype hb h7f h8]
    constructor
    · intro h14
      dsimp only
      rw [if_neg h14]
    · intro h14
      dsimp only
      rw [if_pos h14]

/-- C5, witness: concrete row with unclassified booking-text, GUTSCHRIFT
document-details and a non-empty payment-reason; the memo stays the
payment-reason text. -/
theorem C5_witness :
    (fixupMemoPayeeTrntype "EUR" rowGuard (rowGuard.getD 14 "") "p"
      "t").1 = rowGuard.getD 14 "" := by
  exact (C5_document_memo_guard "EUR" rowGuard "p" "t" (by decide)
    (Or.inr (Or.inl (by decide)))).1 (by decide)

/-- C6: whenever an input does not match the expected layout of the
POS/ATM extractor or of the labeled document extractor, the extractor
returns exactly the sentinel ERR-prefixed original text; both extractors
are total functions, so no exception is possible. -/
theorem C6_extractor_fallback (currency s : String) :
    (reSearch posAtmRE s = none →
      parsePosAtm currency s = "ERR: " ++ s) ∧
    (reSearch docRE s = none → parseDocument s = "ERR: " ++ s) := by
  constructor
  · intro h
    simp [parsePosAtm, h]
  · intro h
    simp [parseDocument, h]

/-- C6, witness at a concrete non-matching input. -/
theorem C6_witness :
    parsePosAtm "EUR" "no match here" = "ERR: no match here" ∧
    parseDocument "no match here" = "ERR: no match here" :=
  ⟨(C6_extractor_fallback "EUR" "no match here").1 (by decide),
   (C6_extractor_fallback "EUR" "no match here").2 (by decide)⟩

/-- C7: for every document-details string matched by the labeled document
extractor, the returned memo is the stripped payment-reason capture when
that is non-empty, and otherwise the stripped payment-reference capture. -/
theorem C7_document_selection (s : String) (caps : List (List Char))
    (h : reSearch docRE s = some caps) :
    (pyStrip (String.mk (caps.getD 2 [])) ≠ "" →
      parseDocument s = pyStrip (String.mk (caps.getD 2 []))) ∧
    (pyStrip (String.mk (caps.getD 2 [])) = "" →
      parseDocument s = pyStrip (String.mk (caps.getD 3 []))) := by
  constructor
  · intro h2
    unfold parseDocument
    rw [h]
    dsimp only
    rw [if_pos h2]
  · intro h2
    unfold parseDocument
    rw [h]
    dsimp only
    rw [if_neg (not_not_intro h2)]

/-- C7, witness: for `docDetails` — whose reason span is all blanks and
whose reference span holds REF123 — the extractor returns the reference
text. -/
theorem C7_witness : parseDocument docDetails = "REF123" := by
  have h : reSearch docRE docDetails = some docCaps := by decide
  have h2 := (C7_document_selection docDetails docCaps h).2 (by decide)
  exact h2.trans (by decide)

/-- C8, counterexample: a row whose amount column parses fine but whose
value-date column holds garbage still raises (the `strptime` at lines 79/86
fails), so an unparseable amount is not the only raising condition. -/
theorem C8_counterexample :
    parse_record "" 2 rowBadDate =
      Except.error "ValueError: time data does not match format" ∧
    (parse_float (fix_amount_string (rowBadDate.getD 5 ""))).isSome =
      true := by
  constructor
  · rfl
  · decide

/-- C8 (amended): an unparseable amount and an unparseable value-date
column are the only raising conditions; once both parse, every remaining
step of per-row processing is total and the row completes for any content
of the other columns. -/
theorem C8_amended (currency : String) (cur_record : Nat)
    (line : List String)
    (hd : (strptime_dmY (line.getD 1 "")).isSome = true)
    (ha : (parse_float (fix_amount_string (line.getD 5 ""))).isSome =
      true) :
    ∃ v, parse_record currency cur_record line = Except.ok v := by
  unfold parse_record
  by_cases hcr : cur_record = 1
  · exact ⟨_, by rw [if_pos hcr]⟩
  · rw [if_neg hcr]
    obtain ⟨d, hd2⟩ := Option.isSome_iff_exists.mp hd
    obtain ⟨amt, ha2⟩ := Option.isSome_iff_exists.mp ha
    rw [hd2, ha2]
    exact ⟨_, rfl⟩

/-- C8 (amended), witness at a fully well-formed concrete row. -/
theorem C8_amended_witness :
    ∃ v, parse_record "" 2 rowDates = Except.ok v :=
  C8_amended "" 2 rowDates (by decide) (by decide)

/-- C9: in the credit/transfer branch the payee is overwritten with the
payer-name column (8) unconditionally, so the finished payee is the
cleaned column 8 whatever the payee-name column (11) held. -/
theorem C9_payee_overwrite (currency : String) (cur_record : Nat)
    (line : List String) (r : StatementLine)
    (hb : noBookingPrefixMatch (line.getD 2 ""))
    (h7 : pyStartswith (line.getD 6 "") "SEPA-AUFTRAGSBESTÄTIGUNG" = false)
    (h8 : (pyStartswith (line.getD 6 "") "GUTSCHRIFT" ||
      pyStartswith (line.getD 6 "") "SEPA" ||
      pyStartswith (line.getD 6 "") "ÜBERWEISUNG") = true)
    (h : recOf (parse_record currency cur_record line) = some r) :
    r.payee = clean_multiple_whitespaces (line.getD 8 "") := by
  rcases recOf_parse_record _ _ _ _ h with ⟨d, amt, hd, ha, rfl⟩
  rw [parse_record_ok_payee, fixup_credit_branch _ _ _ _ _ hb h7 h8]

/-- C9, witness: concrete GUTSCHRIFT row whose payer-name column is empty
while the payee-name column holds JOHN DOE; the record's payee is
empty. -/
theorem C9_witness :
    (recOfD (parse_record "" 2 rowCredit)).payee =
      clean_multiple_whitespaces (rowCredit.getD 8 "") ∧
    (recOfD (parse_record "" 2 rowCredit)).payee = "" ∧
    rowCredit.getD 11 "" = "JOHN DOE" := by
  have h : recOf (parse_record "" 2 rowCredit) =
      some (recOfD (parse_record "" 2 rowCredit)) := by decide
  exact ⟨C9_payee_overwrite "" 2 rowCredit _ (by decide) (by decide)
    (by decide) h, by decide, by decide⟩

theorem isPrefixOf_append_left (a : List Char) : ∀ (b s : List Char),
    (a ++ b).isPrefixOf s = true → a.isPrefixOf s = true := by
  induction a with
  | nil =>
    intro b s h
    exact List.isPrefixOf_nil_left
  | cons c a2 ih =>
    intro b s h
    cases s with
    | nil => exact absurd h (by simp)
    | cons d s2 =>
      rw [List.cons_append, List.isPrefixOf_cons₂, Bool.and_eq_true] at h
      rw [List.isPrefixOf_cons₂, Bool.and_eq_true]
      exact ⟨h.1, ih b s2 h.2⟩

/-- C10: a row whose document-details start with SEPA-AUFTRAGSBESTÄTIGUNG
— a string that also starts with SEPA — is handled by the confirmation
branch, checked before the credit/transfer branch, so the payee keeps the
mapped payee-name column (11) and is never reassigned from the payer-name
column. -/
theorem C10_confirmation_before_credit (currency : String)
    (cur_record : Nat) (line : List String) (r : StatementLine)
    (hb : noBookingPrefixMatch (line.getD 2 ""))
    (h7 : pyStartswith (line.getD 6 "") "SEPA-AUFTRAGSBESTÄTIGUNG" = true)
    (h : recOf (parse_record currency cur_record line) = some r) :
    pyStartswith (line.getD 6 "") "SEPA" = true ∧
    r.payee = clean_multiple_whitespaces (line.getD 11 "") := by
  constructor
  · unfold pyStartswith at h7 ⊢
    have e : "SEPA-AUFTRAGSBESTÄTIGUNG".data =
        "SEPA".data ++ "-AUFTRAGSBESTÄTIGUNG".data := by decide
    rw [e] at h7
    exact isPrefixOf_append_left _ _ _ h7
  · rcases recOf_parse_record _ _ _ _ h with ⟨d, amt, hd, ha, rfl⟩
    rw [parse_record_ok_payee, fixup_confirmation_branch _ _ _ _ _ hb h7]

/-- C10, witness: concrete confirmation row; the payee is the payee-name
column JANE ROE, not the payer-name column. -/
theorem C10_witness :
    pyStartswith (rowConfirm.getD 6 "") "SEPA" = true ∧
    (recOfD (parse_record "" 2 rowConfirm)).payee =
      clean_multiple_whitespaces (rowConfirm.getD 11 "") ∧
    (recOfD (parse_record "" 2 rowConfirm)).payee = "JANE ROE" ∧
    rowConfirm.getD 8 "" = "IGNORED PAYER" := by
  have h : recOf (parse_record "" 2 rowConfirm) =
      some (recOfD (parse_record "" 2 rowConfirm)) := by decide
  have h2 := C10_confirmation_before_credit "" 2 rowConfirm _ (by decide)
    (by decide) h
  exact ⟨h2.1, h2.2, by decide, by decide⟩
